import Mathlib

/-!
Shallow embedding of the AgentPiazza repository's chat/orchestration core.

The repository ships a React frontend (src/frontend/src/api.ts,
src/frontend/src/mockData.ts, the chat page in src/unnamed/part_001) together
with protocol documents and a README.  The FastAPI backend files named by the
README (backend/scope_guard.py, backend/routers/status.py, backend/routers/
chat.py, ...) are not part of the source tree given here; where a claim is
decided by those missing files, the definitions below are modelled from the
spec and say so in their doc comments.  Everything else is translated directly
from the TypeScript sources.

Conventions:
* JavaScript `Map<string, T>` with reads of the form `m.get(k) ?? []` is
  embedded as a total function `String → List T` defaulting to `[]`;
  `m.delete(k)` becomes "reset the key to the default".
* The impure expressions `crypto.randomUUID()` and `new Date().toISOString()`
  are passed in as explicit arguments (they are opaque fresh strings).
* `message.toLowerCase()` / `String.prototype.includes` are embedded as
  character-list operations (`toLowerCase`, `strContains`) so that concrete
  instances reduce in the kernel.
-/

set_option maxRecDepth 100000

/-- `ChatMessageOut` from src/frontend/src/api.ts. -/
structure ChatMessageOut where
  id : String
  role : String
  content : String
  created_at : String
deriving DecidableEq

/-- `AgentStep` from src/frontend/src/api.ts: `status` is one of
`"done" | "active" | "failed"`. -/
structure AgentStep where
  label : String
  status : String
deriving DecidableEq

/-- `PendingPost` from src/frontend/src/api.ts. -/
structure PendingPost where
  content_type : String
  topic : String
  phase : String
  problem : String
  solution : String
  source_ref : String
  tags : List String
deriving DecidableEq

/-- `ChatResponse` from src/frontend/src/api.ts. -/
structure ChatResponse where
  reply : String
  conversation_id : String
  session_id : String
  messages : List ChatMessageOut
  steps : List AgentStep
  pending_post : Option PendingPost
deriving DecidableEq

/-- The fields of `AgentDirectoryItem` that `mockSendChat` consults
(`MOCK_AGENTS.find(a => a.id === agentId)?.name`); the remaining fields of the
mock directory entries are static UI data (and `created_at` is `Date.now`
based), so they are not embedded. -/
structure MockAgent where
  id : String
  name : String
deriving DecidableEq

/-- The ids and names of `MOCK_AGENTS` from src/frontend/src/mockData.ts. -/
def MOCK_AGENTS : List MockAgent :=
  [⟨"demo-agent-1", "ResearchBot-42"⟩,
   ⟨"demo-agent-2", "DataScienceBot"⟩,
   ⟨"demo-agent-3", "WebAgentPro"⟩]

/-- Helper for `strContains`: does `pat` occur as a contiguous run inside the
character list?  Embeds JavaScript `String.prototype.includes`. -/
def containsSub (pat : List Char) : List Char → Bool
  | [] => pat.isPrefixOf ([] : List Char)
  | c :: cs => pat.isPrefixOf (c :: cs) || containsSub pat cs

/-- JavaScript `s.includes(pat)` on strings. -/
def strContains (s pat : String) : Bool :=
  containsSub pat.data s.data

/-- JavaScript `s.toLowerCase()` (basic-latin case folding, which is all the
intent patterns in `pickReply` need). -/
def toLowerCase (s : String) : String :=
  String.mk (s.data.map Char.toLower)

/-- The publish-intent test from the first branch of `pickReply`
(src/frontend/src/mockData.ts line 73):
`m.includes("insight") || m.includes("post") || m.includes("publish")` on the
lowercased message. -/
def publishIntent (message : String) : Bool :=
  let m := toLowerCase message
  strContains m "insight" || strContains m "post" || strContains m "publish"

/-- The reply text of `pickReply`'s publish-intent branch. -/
def PUBLISH_REPLY : String :=
  "Sure! I can draft an insight for you. To post, I\x27d structure it as a problem/solution pair with topic, phase, and tags. Would you like me to prepare a preview for you to confirm before it goes live?"

/-- `pickReply(message, agentName)` from src/frontend/src/mockData.ts. -/
def pickReply (message agentName : String) : String :=
  let m := toLowerCase message
  if strContains m "insight" || strContains m "post" || strContains m "publish" then
    PUBLISH_REPLY
  else if strContains m "hello" || strContains m "hi" || strContains m "hey" then
    "Hi! I\x27m " ++ agentName ++ ", a demo agent on AgentPiazza. I research AI topics and can share insights, answer questions, or post structured findings to the knowledge base. What would you like to explore?"
  else if strContains m "what" && (strContains m "do" || strContains m "can") then
    "I specialize in discovering and sharing structured research insights. You can ask me questions about my area of expertise, request a summary of a topic, or ask me to post a new insight to the shared knowledge base."
  else if strContains m "agent" || strContains m "platform" then
    "Agents on AgentPiazza register with an API key, post structured insights (problem/solution pairs), and are discoverable through the public directory. Each agent has a skill.md that describes what it does and how to interact with it — other AI agents can read this to coordinate."
  else if strContains m "how" then
    "The platform works like this: agents register → receive an API key → post insights via POST /api/insights → users and other agents can search semantically, verify useful insights, and chat. A scope guard ensures all content stays on-topic."
  else if strContains m "search" || strContains m "find" || strContains m "look" then
    "You can search the knowledge base semantically. For example: GET /api/search/semantic?q=prompt+engineering returns the most relevant insights ranked by cosine similarity to your query."
  else
    "That\x27s a thoughtful question. Based on my knowledge base, the key insight is that agentic systems work best when they combine structured storage with semantic retrieval — each insight is indexed in a vector database so agents can find relevant solutions instantly. Would you like me to post a formal insight on this topic?"

/-- `CANNED_STEPS` from src/frontend/src/mockData.ts. -/
def CANNED_STEPS : List AgentStep :=
  [⟨"Parsing intent", "done"⟩,
   ⟨"Searching knowledge base", "done"⟩,
   ⟨"Composing response", "done"⟩]

/-- The module-level `sessionHistory : Map<string, ChatMessageOut[]>` of
src/frontend/src/mockData.ts, embedded as a total function defaulting to `[]`
(every read of the map is `get(sid) ?? []`). -/
def SessionMap : Type := String → List ChatMessageOut

/-- The empty `sessionHistory` map (module initialisation state). -/
def emptyHist : SessionMap := fun _ => []

/-- The agent-name lookup inside `mockSendChat`:
`MOCK_AGENTS.find(a => a.id === agentId)?.name ?? "Demo Agent"`. -/
def agentNameFor (agentId : String) : String :=
  match MOCK_AGENTS.find? (fun a => a.id == agentId) with
  | some a => a.name
  | none => "Demo Agent"

/-- `mockSendChat(agentId, message, sessionId?)` from
src/frontend/src/mockData.ts.  The two `crypto.randomUUID()` calls and the two
`new Date().toISOString()` calls are passed in as `userId`, `assistantId` and
`now` (the source stamps both messages inside the same call, so one `now`
argument serves both).  Returns the `ChatResponse` together with the updated
`sessionHistory` map. -/
def mockSendChat (hist : SessionMap) (agentId message : String)
    (sessionId : Option String) (userId assistantId now : String) :
    ChatResponse × SessionMap :=
  let sid := sessionId.getD ("demo-session-" ++ agentId)
  let history := hist sid
  let agentName := agentNameFor agentId
  let userMsg : ChatMessageOut := ⟨userId, "user", message, now⟩
  let reply := pickReply message agentName
  let assistantMsg : ChatMessageOut := ⟨assistantId, "assistant", reply, now⟩
  let updated := history ++ [userMsg, assistantMsg]
  let hist2 : SessionMap := fun s => if s = sid then updated else hist s
  (⟨reply, "demo-conv-" ++ agentId, sid, updated, CANNED_STEPS, none⟩, hist2)

/-- The response record of `mockGetChatHistory` (src/frontend/src/mockData.ts). -/
structure ChatHistoryResponse where
  conversation_id : String
  session_id : String
  agent_id : String
  messages : List ChatMessageOut
deriving DecidableEq

/-- `mockGetChatHistory(agentId, sessionId)` from src/frontend/src/mockData.ts:
returns `sessionHistory.get(sessionId) ?? []`. -/
def mockGetChatHistory (hist : SessionMap) (agentId sessionId : String) :
    ChatHistoryResponse :=
  ⟨"demo-conv-" ++ agentId, sessionId, agentId, hist sessionId⟩

/-- `mockClearChatHistory(sessionId)` from src/frontend/src/mockData.ts:
`sessionHistory.delete(sessionId)`, i.e. the key reverts to the map's
default `[]`. -/
def mockClearChatHistory (hist : SessionMap) (sessionId : String) : SessionMap :=
  fun s => if s = sessionId then [] else hist s

/-- `api.sendChat` from src/frontend/src/api.ts (lines 178-181): POST the
message to the backend and, on ANY failure of that request, fall back to
`mockSendChat`.  The backend interaction is opaque I/O, embedded as
`backend : Option ChatResponse` — `some r` is a successful backend response
`r`, `none` is a failed request (network error or non-ok status).  On the
`some` path the local mock session map is untouched. -/
def apiSendChat (backend : Option ChatResponse) (hist : SessionMap)
    (agentId message : String) (sessionId : Option String)
    (userId assistantId now : String) : ChatResponse × SessionMap :=
  match backend with
  | some r => (r, hist)
  | none => mockSendChat hist agentId message sessionId userId assistantId now


/-- State pieces of the Chat page component (src/unnamed/part_001, `Chat`)
touched by the cancel flow: the message thread, the step tracker and the
staged pending post. -/
structure ChatPageState where
  messages : List ChatMessageOut
  lastSteps : List AgentStep
  pendingPost : Option PendingPost
deriving DecidableEq

/-- The acknowledgement text appended by `handleCancelled`
(src/unnamed/part_001 line 393). -/
def CANCEL_TEXT : String :=
  "Post cancelled. Let me know if you\x27d like to make any changes before posting."

/-- `handleCancelled` from src/unnamed/part_001 (lines 389-399): appends the
cancellation acknowledgement as an assistant message, resets the step tracker
and clears the pending post.  `crypto.randomUUID()` / `toISOString()` are the
`msgId` / `now` arguments. -/
def handleCancelled (st : ChatPageState) (msgId now : String) : ChatPageState :=
  { messages := st.messages ++ [⟨msgId, "assistant", CANCEL_TEXT, now⟩]
    lastSteps := []
    pendingPost := none }

/-- The Chat page state paired with an arbitrary external store state `σ`
(backend insight store, vector index, mock session map, ...). -/
structure World (σ : Type) where
  page : ChatPageState
  store : σ
deriving DecidableEq

/-- The cancel flow of the post preview card: the Cancel button's `onClick`
is the `onCancelled` callback (src/unnamed/part_001 line 264), which is
`handleCancelled`; no api call is made anywhere on this path, so the store
component (of any type `σ`) is carried through untouched. -/
def cancelPost {σ : Type} (w : World σ) (msgId now : String) : World σ :=
  { w with page := handleCancelled w.page msgId now }

/-- A sample pending post, for concrete witnesses. -/
def samplePost : PendingPost :=
  ⟨"insight", "RAG", "Optimization", "p", "s", "", ["rag"]⟩

/-- One `mockSendChat` call (agent, message and the impure fresh strings). -/
structure SendCall where
  agentId : String
  message : String
  userId : String
  assistantId : String
  now : String

/-- The user message a call appends. -/
def sendUserMsg (c : SendCall) : ChatMessageOut :=
  ⟨c.userId, "user", c.message, c.now⟩

/-- The assistant message a call appends. -/
def sendAssistantMsg (c : SendCall) : ChatMessageOut :=
  ⟨c.assistantId, "assistant", pickReply c.message (agentNameFor c.agentId), c.now⟩

/-- The flattened user/assistant message pairs of a list of calls. -/
def msgsOfCalls : List SendCall → List ChatMessageOut
  | [] => []
  | c :: cs => sendUserMsg c :: sendAssistantMsg c :: msgsOfCalls cs

/-- Run a list of `mockSendChat` calls against one session id, threading the
`sessionHistory` map. -/
def runSends (hist : SessionMap) (sid : String) : List SendCall → SessionMap
  | [] => hist
  | c :: cs =>
      runSends
        (mockSendChat hist c.agentId c.message (some sid) c.userId c.assistantId c.now).2
        sid cs

/-- Modelled from the spec: the Blocker Scorer (README: backend/routers/
status.py, "Blockers endpoint") is not under src/.  Per-topic input aggregate
of the scorer — the QueryLog count and the count of insights with
`verification_count > 0` for that topic (spec §4.2). -/
structure TopicAggregate where
  topic : String
  query_count : Nat
  verified_insight_count : Nat
deriving DecidableEq

/-- `BlockerItem` from src/frontend/src/api.ts (derived, not stored). -/
structure BlockerItem where
  topic : String
  query_count : Nat
  verified_insight_count : Nat
  blocker_score : ℚ
deriving DecidableEq

/-- Modelled from the spec (§4.2, backend scorer not under src/):
`blocker_score(topic) = query_count / (verified_insight_count + 1)`. -/
def blocker_score (t : TopicAggregate) : ℚ :=
  (t.query_count : ℚ) / ((t.verified_insight_count : ℚ) + 1)

/-- The `BlockerItem` derived from one aggregate. -/
def mkBlockerItem (t : TopicAggregate) : BlockerItem :=
  ⟨t.topic, t.query_count, t.verified_insight_count, blocker_score t⟩

/-- Modelled from the spec (§4.2): only topics with `query_count > 0` are
candidates, each carrying its blocker score. -/
def candidates (aggs : List TopicAggregate) : List BlockerItem :=
  (aggs.filter (fun t => 0 < t.query_count)).map mkBlockerItem

/-- The ranking order of spec §4.2 as a proposition: `a` comes no later than
`b` iff `a` has strictly higher score, or equal scores and strictly higher
query count, or equal scores and counts and lexicographically smaller-or-equal
topic. -/
def blockerBefore (a b : BlockerItem) : Prop :=
  b.blocker_score < a.blocker_score
    ∨ (a.blocker_score = b.blocker_score
        ∧ (b.query_count < a.query_count
            ∨ (a.query_count = b.query_count ∧ a.topic ≤ b.topic)))

/-- The same ranking order as a boolean comparator for `mergeSort`. -/
def blockerLE (a b : BlockerItem) : Bool :=
  decide (b.blocker_score < a.blocker_score)
    || (decide (a.blocker_score = b.blocker_score)
        && (decide (b.query_count < a.query_count)
            || (decide (a.query_count = b.query_count) && decide (a.topic ≤ b.topic))))

/-- Modelled from the spec (§4.2): `rank(limit)` recomputes the candidate set
from the current aggregates, sorts it by the blocker order and truncates to
`limit`. -/
def rank (aggs : List TopicAggregate) (limit : Nat) : List BlockerItem :=
  ((candidates aggs).mergeSort blockerLE).take limit

/-- Modelled from the spec: backend/scope_guard.py is not under src/.  The
Scope Guard decision (spec §4.1): `Accept | Reject{similarity, threshold,
hint}`. -/
inductive ScopeDecision where
  | accept
  | reject (similarity : ℚ) (threshold : ℚ) (hint : String)
deriving DecidableEq

/-- Modelled from the spec: backend/scope_guard.py is not under src/.  The
guard's fixed data (spec §4.1): the Embedding Provider (`embed`, an external
black box, deterministic for identical text), the similarity metric
(`cosineSim`, cosine similarity of two vectors — kept as a parameter because
the spec treats the numeric vector operations as black boxes and the guard's
contract depends only on the resulting score), the cached reference vector of
the configured scope, the configured threshold, and the hint text attached to
rejections. -/
structure ScopeGuard where
  embed : String → List ℚ
  cosineSim : List ℚ → List ℚ → ℚ
  refVec : List ℚ
  threshold : ℚ
  hint : String

/-- Modelled from the spec (§4.1): embed the candidate text, compare the
similarity against the reference vector with the configured threshold; accept
iff `similarity ≥ threshold`, otherwise reject carrying the numeric similarity
and the threshold.  A pure function of (text, reference vector, threshold). -/
def ScopeGuard.evaluate (g : ScopeGuard) (text : String) : ScopeDecision :=
  let s := g.cosineSim (g.embed text) g.refVec
  if g.threshold ≤ s then ScopeDecision.accept else ScopeDecision.reject s g.threshold g.hint

/-- A concrete guard instance for witnesses: one-dimensional embeddings
(text length), inner-product similarity, reference vector `[1]`,
threshold `1/2`. -/
def demoGuard : ScopeGuard :=
  { embed := fun s => [(s.length : ℚ)]
    cosineSim := fun u v => ((u.zip v).map (fun p => p.1 * p.2)).sum
    refVec := [1]
    threshold := 1/2
    hint := "content appears out of scope" }

/-- C7: every `mockSendChat` call keeps the previously accumulated history of
the session as an unchanged initial segment and appends exactly two messages —
the user message followed by the assistant reply; sessions other than the one
addressed are not modified (no reordering or deletion). -/
theorem mockSendChat_append_only (hist : SessionMap) (agentId message : String)
    (sessionId : Option String) (userId assistantId now : String) :
    ((mockSendChat hist agentId message sessionId userId assistantId now).2
          (sessionId.getD ("demo-session-" ++ agentId))
        = hist (sessionId.getD ("demo-session-" ++ agentId)) ++
            [⟨userId, "user", message, now⟩,
             ⟨assistantId, "assistant", pickReply message (agentNameFor agentId), now⟩])
    ∧ ∀ s : String, s ≠ sessionId.getD ("demo-session-" ++ agentId) →
        (mockSendChat hist agentId message sessionId userId assistantId now).2 s = hist s := by
  constructor
  · simp [mockSendChat]
  · intro s hs
    simp [mockSendChat, if_neg hs]

/-- Witness for C7 at concrete inputs: one call on the empty map stores
exactly the user/assistant pair under "demo-session-demo-agent-1" and leaves
the unrelated session "other" empty. -/
theorem mockSendChat_append_only_witness :
    ((mockSendChat emptyHist "demo-agent-1" "hello" none "u1" "a1" "t1").2
        "demo-session-demo-agent-1"
      = [⟨"u1", "user", "hello", "t1"⟩,
         ⟨"a1", "assistant", pickReply "hello" (agentNameFor "demo-agent-1"), "t1"⟩])
    ∧ (mockSendChat emptyHist "demo-agent-1" "hello" none "u1" "a1" "t1").2 "other"
        = emptyHist "other" := by
  have h := mockSendChat_append_only emptyHist "demo-agent-1" "hello" none "u1" "a1" "t1"
  exact ⟨h.1, h.2 "other" (by decide)⟩

/-- C8: a first `mockSendChat` call made without a session id returns a
non-empty `session_id`, and a second call supplying that returned id continues
the same conversation: its message list extends the first call's message list
(so the first call's messages are an initial segment of it). -/
theorem mockSendChat_session_continuity (hist : SessionMap)
    (agentId m1 m2 u1 a1 t1 u2 a2 t2 : String) :
    (mockSendChat hist agentId m1 none u1 a1 t1).1.session_id ≠ ""
    ∧ (mockSendChat
          (mockSendChat hist agentId m1 none u1 a1 t1).2 agentId m2
          (some (mockSendChat hist agentId m1 none u1 a1 t1).1.session_id)
          u2 a2 t2).1.messages
        = (mockSendChat hist agentId m1 none u1 a1 t1).1.messages ++
            [⟨u2, "user", m2, t2⟩,
             ⟨a2, "assistant", pickReply m2 (agentNameFor agentId), t2⟩] := by
  constructor
  · intro h
    have : ("demo-session-" ++ agentId).data = "".data := congrArg String.data h
    simp [String.append] at this
  · simp [mockSendChat]

/-- C10: when `sessionId` is omitted, `mockSendChat` always mints the fixed id
`"demo-session-" ++ agentId`; two successive calls on the same agent that both
omit the session id therefore share one history — the second call's messages
extend the first call's instead of starting a fresh session. -/
theorem mockSendChat_fixed_demo_session (hist : SessionMap)
    (agentId m1 m2 u1 a1 t1 u2 a2 t2 : String) :
    (mockSendChat hist agentId m1 none u1 a1 t1).1.session_id
        = "demo-session-" ++ agentId
    ∧ (mockSendChat
          (mockSendChat hist agentId m1 none u1 a1 t1).2 agentId m2 none u2 a2 t2).1.session_id
        = (mockSendChat hist agentId m1 none u1 a1 t1).1.session_id
    ∧ (mockSendChat
          (mockSendChat hist agentId m1 none u1 a1 t1).2 agentId m2 none u2 a2 t2).1.messages
        = (mockSendChat hist agentId m1 none u1 a1 t1).1.messages ++
            [⟨u2, "user", m2, t2⟩,
             ⟨a2, "assistant", pickReply m2 (agentNameFor agentId), t2⟩] := by
  refine ⟨rfl, rfl, ?_⟩
  simp [mockSendChat]

/-- Auxiliary for C9: running calls against one session id accumulates exactly
the user/assistant pairs of the calls, in order, after whatever was already
stored. -/
theorem runSends_history (sid : String) (calls : List SendCall) :
    ∀ hist : SessionMap, runSends hist sid calls sid = hist sid ++ msgsOfCalls calls := by
  induction calls with
  | nil => intro hist; simp [runSends, msgsOfCalls]
  | cons c cs ih =>
      intro hist
      rw [runSends, ih]
      simp [mockSendChat, msgsOfCalls, sendUserMsg, sendAssistantMsg]

/-- C9: starting from the empty mock store, `mockGetChatHistory` returns
exactly the messages accumulated by the prior `mockSendChat` calls on that
session, in order (each call contributing its user message then its assistant
reply); and after `mockClearChatHistory` on the session, `mockGetChatHistory`
returns the empty message list. -/
theorem mock_history_accumulate_and_clear (agentId sid : String)
    (calls : List SendCall) (hist : SessionMap) :
    (mockGetChatHistory (runSends emptyHist sid calls) agentId sid).messages
        = msgsOfCalls calls
    ∧ (mockGetChatHistory (mockClearChatHistory hist sid) agentId sid).messages = [] := by
  constructor
  · show runSends emptyHist sid calls sid = msgsOfCalls calls
    rw [runSends_history sid calls emptyHist]
    rfl
  · show mockClearChatHistory hist sid sid = []
    simp [mockClearChatHistory]

/-- C6: cancelling from a state that holds a pending post clears the pending
post, appends exactly one acknowledgement message (the assistant-role
cancellation text) to the message thread, and performs no store or backend
interaction — the store component of the world, of arbitrary type, is
unchanged. -/
theorem cancelPost_clears_and_acks {σ : Type} (w : World σ) (p : PendingPost)
    (h : w.page.pendingPost = some p) (msgId now : String) :
    (cancelPost w msgId now).page.pendingPost = none
    ∧ (cancelPost w msgId now).page.messages
        = w.page.messages ++ [⟨msgId, "assistant", CANCEL_TEXT, now⟩]
    ∧ (cancelPost w msgId now).store = w.store :=
  ⟨rfl, rfl, rfl⟩

/-- Witness for C6: a concrete world (store state `0 : Nat`) holding
`samplePost`; cancelling clears the post, appends the acknowledgement and
leaves the store untouched. -/
theorem cancelPost_clears_and_acks_witness :
    (cancelPost (⟨⟨[], [], some samplePost⟩, (0 : Nat)⟩ : World Nat) "m1" "t9").page.pendingPost
        = none
    ∧ (cancelPost (⟨⟨[], [], some samplePost⟩, (0 : Nat)⟩ : World Nat) "m1" "t9").page.messages
        = [⟨"m1", "assistant", CANCEL_TEXT, "t9"⟩]
    ∧ (cancelPost (⟨⟨[], [], some samplePost⟩, (0 : Nat)⟩ : World Nat) "m1" "t9").store = 0 :=
  cancelPost_clears_and_acks (⟨⟨[], [], some samplePost⟩, (0 : Nat)⟩ : World Nat)
    samplePost rfl "m1" "t9"

/-- C1 counterexample: a `sendChat` call whose backend request fails (modelled
by `backend = none`, the `.catch` path of api.ts lines 178-181) returns the
canned mock success: no step is tagged "failed" and every step is tagged
"done" — refuting the claim that the returned step trace contains at least one
"failed" step. -/
theorem apiSendChat_failure_no_failed_step :
    ((apiSendChat none emptyHist "demo-agent-1" "hello" none "u1" "a1" "t1").1.steps.any
        (fun s => s.status == "failed")) = false
    ∧ ((apiSendChat none emptyHist "demo-agent-1" "hello" none "u1" "a1" "t1").1.steps.all
        (fun s => s.status == "done")) = true := by
  exact ⟨rfl, rfl⟩

/-- C1 (amended): for every `sendChat` call in which the backend request
fails, the client substitutes `mockSendChat`'s canned successful response:
the result equals the mock response, all of its steps are tagged "done" and
none is tagged "failed" — the failure is silently converted into an ordinary
successful reply. -/
theorem apiSendChat_failure_degrades_to_mock (hist : SessionMap)
    (agentId message : String) (sessionId : Option String)
    (userId assistantId now : String) :
    apiSendChat none hist agentId message sessionId userId assistantId now
        = mockSendChat hist agentId message sessionId userId assistantId now
    ∧ ((apiSendChat none hist agentId message sessionId userId assistantId now).1.steps.all
        (fun s => s.status == "done")) = true
    ∧ ((apiSendChat none hist agentId message sessionId userId assistantId now).1.steps.any
        (fun s => s.status == "failed")) = false :=
  ⟨rfl, rfl, rfl⟩

/-- C2 counterexample: the message "please post an insight" expresses publish
intent under the implemented detection, yet `mockSendChat` returns
`pending_post = none` — refuting the claim that publish-intent messages yield
a non-null pending post. -/
theorem mockSendChat_publish_intent_null_pending :
    publishIntent "please post an insight" = true
    ∧ (mockSendChat emptyHist "demo-agent-1" "please post an insight" none
        "u1" "a1" "t1").1.pending_post = none := by
  exact ⟨by decide, rfl⟩

/-- C2 (amended): `mockSendChat` returns `pending_post = null` for every
message; a publish-intent message only selects the canned draft-offer reply
text, it never stages a pending post. -/
theorem mockSendChat_pending_post_always_none (hist : SessionMap)
    (agentId message : String) (sessionId : Option String)
    (userId assistantId now : String) :
    (mockSendChat hist agentId message sessionId userId assistantId now).1.pending_post = none
    ∧ (publishIntent message = true →
        (mockSendChat hist agentId message sessionId userId assistantId now).1.reply
          = PUBLISH_REPLY) := by
  refine ⟨rfl, fun h => ?_⟩
  simp only [publishIntent] at h
  simp [mockSendChat, pickReply, h]

/-- Witness for C2 (amended) at a concrete publish-intent input. -/
theorem mockSendChat_pending_post_always_none_witness :
    (mockSendChat emptyHist "demo-agent-1" "please post this" none
        "u2" "a2" "t2").1.pending_post = none
    ∧ (mockSendChat emptyHist "demo-agent-1" "please post this" none
        "u2" "a2" "t2").1.reply = PUBLISH_REPLY :=
  ⟨(mockSendChat_pending_post_always_none emptyHist "demo-agent-1" "please post this"
      none "u2" "a2" "t2").1,
   (mockSendChat_pending_post_always_none emptyHist "demo-agent-1" "please post this"
      none "u2" "a2" "t2").2 (by decide)⟩

theorem blockerLE_iff (a b : BlockerItem) : blockerLE a b = true ↔ blockerBefore a b := by
  simp [blockerLE, blockerBefore]

theorem blockerBefore_total (a b : BlockerItem) : blockerBefore a b ∨ blockerBefore b a := by
  unfold blockerBefore
  rcases lt_trichotomy a.blocker_score b.blocker_score with h | h | h
  · right; left; exact h
  · rcases lt_trichotomy a.query_count b.query_count with h2 | h2 | h2
    · right; right; exact ⟨h.symm, Or.inl h2⟩
    · rcases le_total a.topic b.topic with h3 | h3
      · left; right; exact ⟨h, Or.inr ⟨h2, h3⟩⟩
      · right; right; exact ⟨h.symm, Or.inr ⟨h2.symm, h3⟩⟩
    · left; right; exact ⟨h, Or.inl h2⟩
  · left; left; exact h

theorem blockerBefore_trans (a b c : BlockerItem) :
    blockerBefore a b → blockerBefore b c → blockerBefore a c := by
  unfold blockerBefore
  rintro (hab | ⟨hs, hab⟩) (hbc | ⟨hs2, hbc⟩)
  · exact Or.inl (lt_trans hbc hab)
  · exact Or.inl (hs2 ▸ hab)
  · exact Or.inl (hs ▸ hbc)
  · refine Or.inr ⟨hs.trans hs2, ?_⟩
    rcases hab with hq | ⟨hq, ht⟩
    · rcases hbc with hq2 | ⟨hq2, _⟩
      · exact Or.inl (lt_trans hq2 hq)
      · exact Or.inl (hq2 ▸ hq)
    · rcases hbc with hq2 | ⟨hq2, ht2⟩
      · exact Or.inl (hq ▸ hq2)
      · exact Or.inr ⟨hq.trans hq2, le_trans ht ht2⟩

/-- C4: a topic aggregate contributes a candidate iff its query count is
positive; its score is exactly `query_count / (verified_insight_count + 1)`;
and at the published data points, 12 queries with 0 verified insights score
12 and 12 queries with 1 verified insight score 6. -/
theorem blocker_candidates_and_score (aggs : List TopicAggregate)
    (t : TopicAggregate) (h : t ∈ aggs) :
    (mkBlockerItem t ∈ candidates aggs ↔ 0 < t.query_count)
    ∧ blocker_score t = (t.query_count : ℚ) / ((t.verified_insight_count : ℚ) + 1)
    ∧ blocker_score ⟨"x", 12, 0⟩ = 12
    ∧ blocker_score ⟨"x", 12, 1⟩ = 6 := by
  refine ⟨⟨?_, ?_⟩, rfl, by norm_num [blocker_score], by norm_num [blocker_score]⟩
  · intro hm
    obtain ⟨x, hx, heq⟩ := List.mem_map.mp hm
    have hq : x.query_count = t.query_count := congrArg BlockerItem.query_count heq
    have := (List.mem_filter.mp hx).2
    rw [← hq]
    simpa using this
  · intro hq
    exact List.mem_map_of_mem mkBlockerItem (List.mem_filter.mpr ⟨h, by simpa using hq⟩)

/-- Witness for C4 at the published example: the aggregate
`("rag", 12 queries, 0 verified)` is a candidate and scores 12; with one
verified insight the score is 6. -/
theorem blocker_candidates_and_score_witness :
    (mkBlockerItem ⟨"rag", 12, 0⟩ ∈ candidates [⟨"rag", 12, 0⟩] ↔
        0 < (12 : Nat))
    ∧ blocker_score ⟨"rag", 12, 0⟩ = ((12 : Nat) : ℚ) / (((0 : Nat) : ℚ) + 1)
    ∧ blocker_score ⟨"x", 12, 0⟩ = 12
    ∧ blocker_score ⟨"x", 12, 1⟩ = 6 :=
  blocker_candidates_and_score [⟨"rag", 12, 0⟩] ⟨"rag", 12, 0⟩ (List.mem_singleton.mpr rfl)

/-- C5: for every limit and every input aggregate list, `rank limit` returns
at most `limit` items, pairwise ordered by the blocker order — descending
blocker score, ties broken by descending query count, remaining ties by
ascending lexicographic topic. -/
theorem rank_sorted_and_bounded (aggs : List TopicAggregate) (limit : Nat) :
    (rank aggs limit).length ≤ limit
    ∧ (rank aggs limit).Pairwise blockerBefore := by
  constructor
  · exact List.length_take_le _ _
  · have hs : ((candidates aggs).mergeSort blockerLE).Pairwise (fun a b => blockerLE a b) :=
      List.sorted_mergeSort
        (fun a b c h1 h2 => by
          have := blockerBefore_trans a b c ((blockerLE_iff a b).mp (by simpa using h1))
            ((blockerLE_iff b c).mp (by simpa using h2))
          simpa using (blockerLE_iff a c).mpr this)
        (fun a b => by
          rcases blockerBefore_total a b with h | h
          · simp [(blockerLE_iff a b).mpr h]
          · simp [(blockerLE_iff b a).mpr h])
        (candidates aggs)
    have hp : ((candidates aggs).mergeSort blockerLE).Pairwise blockerBefore :=
      hs.imp (fun hab => (blockerLE_iff _ _).mp (by simpa using hab))
    exact hp.sublist (List.take_sublist _ _)

/-- C3: the Scope Guard accepts iff the similarity of the text's embedding
against the reference vector is at least the threshold; every rejection
carries exactly that numeric similarity and the configured threshold; and the
decision (in particular the returned similarity) is identical for texts with
identical embeddings. -/
theorem scope_guard_evaluate_spec (g : ScopeGuard) (t1 t2 : String) :
    (g.evaluate t1 = ScopeDecision.accept ↔
        g.threshold ≤ g.cosineSim (g.embed t1) g.refVec)
    ∧ (∀ (s th : ℚ) (hintText : String),
        g.evaluate t1 = ScopeDecision.reject s th hintText →
          s = g.cosineSim (g.embed t1) g.refVec ∧ th = g.threshold)
    ∧ (g.embed t1 = g.embed t2 → g.evaluate t1 = g.evaluate t2) := by
  unfold ScopeGuard.evaluate
  refine ⟨?_, ?_, ?_⟩
  · by_cases h : g.threshold ≤ g.cosineSim (g.embed t1) g.refVec
    · simp [h]
    · simp [h]
  · intro s th hintText heq
    by_cases h : g.threshold ≤ g.cosineSim (g.embed t1) g.refVec
    · simp [h] at heq
    · simp only [if_neg h, ScopeDecision.reject.injEq] at heq
      exact ⟨heq.1.symm, heq.2.1.symm⟩
  · intro h
    rw [h]

/-- Witness for C3: on `demoGuard`, the two-character text is accepted
(similarity 2 ≥ 1/2), the empty text is rejected carrying similarity 0 and
threshold 1/2, and equal embeddings give equal decisions. -/
theorem scope_guard_evaluate_spec_witness :
    demoGuard.evaluate "ab" = ScopeDecision.accept
    ∧ ((0 : ℚ) = demoGuard.cosineSim (demoGuard.embed "") demoGuard.refVec
        ∧ (1/2 : ℚ) = demoGuard.threshold)
    ∧ demoGuard.evaluate "" = demoGuard.evaluate "" :=
  ⟨(scope_guard_evaluate_spec demoGuard "ab" "ab").1.mpr
      (by simp [demoGuard, show "ab".length = 2 from rfl]; norm_num),
   (scope_guard_evaluate_spec demoGuard "" "").2.1 0 (1/2) demoGuard.hint
      (by norm_num [ScopeGuard.evaluate, demoGuard]),
   (scope_guard_evaluate_spec demoGuard "" "").2.2 rfl⟩

/-- Witness for C8 at concrete inputs: the minted session id is non-empty and
the follow-up call that supplies it extends the first call's messages. -/
theorem mockSendChat_session_continuity_witness :
    (mockSendChat emptyHist "demo-agent-2" "hi" none "u1" "a1" "t1").1.session_id ≠ ""
    ∧ (mockSendChat
          (mockSendChat emptyHist "demo-agent-2" "hi" none "u1" "a1" "t1").2 "demo-agent-2" "thanks"
          (some (mockSendChat emptyHist "demo-agent-2" "hi" none "u1" "a1" "t1").1.session_id)
          "u2" "a2" "t2").1.messages
        = (mockSendChat emptyHist "demo-agent-2" "hi" none "u1" "a1" "t1").1.messages ++
            [⟨"u2", "user", "thanks", "t2"⟩,
             ⟨"a2", "assistant", pickReply "thanks" (agentNameFor "demo-agent-2"), "t2"⟩] :=
  mockSendChat_session_continuity emptyHist "demo-agent-2" "hi" "thanks"
    "u1" "a1" "t1" "u2" "a2" "t2"
